import Mathlib

/-!
Shallow embedding of `lonab_scraper.py`, a single-shot scraper that
fetches one HTML page, locates result elements through a cascade of
selectors, extracts per-element data (text lines, regex detectors,
content classification) and assembles one JSON report.

Strings are modelled as `List Char` so that every operation is a
computable structural recursion.  The Python `re` module is modelled by
a small fuel-driven backtracking matcher (`mrun`) faithful to Python
semantics for the seven concrete patterns the script uses: leftmost
match, greedy quantifiers with backtracking, word boundaries, a single
capture group, and `re.findall` scanning (non-overlapping, resuming at
each match end).
-/

/-- Model of Python strings: a list of characters. -/
abbrev Str := List Char

/-- Python regex `\d` (ASCII digits, as produced by the page text). -/
def pyIsDigit (c : Char) : Bool := '0' ≤ c && c ≤ '9'

/-- Python regex `\s` and `str.strip` whitespace (ASCII range). -/
def pyIsSpace (c : Char) : Bool :=
  c == ' ' || c == '\t' || c == '\n' || c == '\r' || c == '\x0b' || c == '\x0c'

/-- Python regex `\w` (ASCII letters, digits, underscore). -/
def pyIsWord (c : Char) : Bool := c.isAlphanum || c == '_'

/-- Python `str.strip()`: drop leading and trailing whitespace. -/
def pyStrip (s : Str) : Str :=
  ((s.dropWhile pyIsSpace).reverse.dropWhile pyIsSpace).reverse

/-- Python `str.lower()` (ASCII case folding on this page content). -/
def pyLower (s : Str) : Str := s.map Char.toLower

/-- Does `n` occur at the start of the second argument? -/
def startsWith : Str → Str → Bool
  | [], _ => true
  | _ :: _, [] => false
  | a :: as, b :: bs => a == b && startsWith as bs

/-- Python substring test `n in h` (contiguous occurrence). -/
def isSubstr (n : Str) : Str → Bool
  | [] => startsWith n []
  | c :: rest => startsWith n (c :: rest) || isSubstr n rest

/-- Python `s.split(chr(10))`: split at every newline, keeping empty parts. -/
def splitNL : Str → List Str
  | [] => [[]]
  | c :: rest =>
    match splitNL rest with
    | [] => [[]]
    | l :: ls => if c = '\n' then [] :: l :: ls else (c :: l) :: ls

/-- Join a list of lines with a newline separator. -/
def joinNL (ls : List Str) : Str := List.intercalate ['\n'] ls

/-!
Regular expressions.  The AST covers exactly the constructs used by the
seven patterns in the script: character classes, concatenation,
alternation (tried left to right), greedy star, greedy bounded
repetition `{lo,hi}`, the word boundary `\b`, and one capture-group-end
marker (every pattern with a group has the group start at the match
start, so only the end position must be recorded).
-/

inductive RE where
  | eps : RE
  | cls : (Char → Bool) → RE
  | cat : RE → RE → RE
  | alt : RE → RE → RE
  | star : RE → RE
  | rep : Nat → Nat → RE → RE
  | wb : RE
  | grpEnd : RE

/-- Concatenation of a list of regex pieces. -/
def rcat (rs : List RE) : RE := rs.foldr RE.cat RE.eps

/-- Regex `r+` (greedy). -/
def rplus (r : RE) : RE := RE.cat r (RE.star r)

/-- Literal string, case sensitive. -/
def rlit (cs : Str) : RE := rcat (cs.map (fun c => RE.cls (fun x => x == c)))

/-- Literal string under `re.IGNORECASE` (ASCII case folding). -/
def rlitCI (cs : Str) : RE :=
  rcat (cs.map (fun c => RE.cls (fun x => x.toLower == c.toLower)))

/-- Is the character at position `i` a word character (false past the end)? -/
def wordAt (s : Str) (i : Nat) : Bool :=
  match s.get? i with
  | some c => pyIsWord c
  | none => false

/-- Is the character just before position `i` a word character? -/
def prevWordAt (s : Str) (i : Nat) : Bool :=
  match i with
  | 0 => false
  | j + 1 => wordAt s j

/-- Backtracking matcher in continuation-passing style, faithful to
Python `re` semantics: alternatives are tried left to right, `star` and
`rep` are greedy and backtrack through the continuation, `wb` matches
the empty string at a word boundary, `grpEnd` records the current
position as the end of capture group 1.  The continuation receives the
current position and the recorded group end; `none` signals failure and
triggers backtracking.  Fuel bounds the recursion depth; all uses below
supply fuel ample for their inputs. -/
def mrun (s : Str) : Nat → RE → Nat → Option Nat →
    (Nat → Option Nat → Option (Nat × Option Nat)) → Option (Nat × Option Nat)
  | 0, _, _, _, _ => none
  | _ + 1, RE.eps, i, g, k => k i g
  | _ + 1, RE.cls p, i, g, k =>
    match s.get? i with
    | some c => if p c then k (i + 1) g else none
    | none => none
  | fuel + 1, RE.cat a b, i, g, k =>
    mrun s fuel a i g (fun j g2 => mrun s fuel b j g2 k)
  | fuel + 1, RE.alt a b, i, g, k =>
    match mrun s fuel a i g k with
    | some r => some r
    | none => mrun s fuel b i g k
  | fuel + 1, RE.star a, i, g, k =>
    match mrun s fuel a i g
        (fun j g2 => if i < j then mrun s fuel (RE.star a) j g2 k else none) with
    | some r => some r
    | none => k i g
  | fuel + 1, RE.rep lo hi a, i, g, k =>
    match hi with
    | 0 => if lo = 0 then k i g else none
    | hi2 + 1 =>
      match lo with
      | 0 =>
        match mrun s fuel a i g
            (fun j g2 => mrun s fuel (RE.rep 0 hi2 a) j g2 k) with
        | some r => some r
        | none => k i g
      | lo2 + 1 =>
        mrun s fuel a i g (fun j g2 => mrun s fuel (RE.rep lo2 hi2 a) j g2 k)
  | _ + 1, RE.wb, i, g, k =>
    if wordAt s i != prevWordAt s i then k i g else none
  | _ + 1, RE.grpEnd, i, _, k => k i (some i)

/-- Substring of `s` from position `a` (inclusive) to `b` (exclusive). -/
def strSub (s : Str) (a b : Nat) : Str := (s.drop a).take (b - a)

/-- Fuel ample for any match attempt of the patterns below on `s`. -/
def matchFuel (s : Str) : Nat := (s.length + 2) * 100

/-- Attempt a match of `re` at position `i` of `s`; returns the match
end and group-1 end on success. -/
def matchAt (re : RE) (s : Str) (i : Nat) : Option (Nat × Option Nat) :=
  mrun s (matchFuel s) re i none (fun j g => some (j, g))

/-- Scanning loop of `re.findall`: try each start position from left to
right; on a match report the group-1 text when the pattern has a group,
the whole match otherwise, and resume at the match end (matches never
being empty for the patterns used). -/
def refindallGo (re : RE) (s : Str) : Nat → Nat → List Str
  | 0, _ => []
  | fuel + 1, i =>
    if i > s.length then []
    else
      match matchAt re s i with
      | some (e, g) =>
        let piece := match g with
          | some ge => strSub s i ge
          | none => strSub s i e
        piece :: refindallGo re s fuel (if i < e then e else i + 1)
      | none => refindallGo re s fuel (i + 1)

/-- Python `re.findall(pattern, s)` for the patterns of the script. -/
def refindall (re : RE) (s : Str) : List Str :=
  refindallGo re s (s.length + 2) 0

/-! The seven regex patterns of the script, transcribed construct by
construct. -/

/-- Regex piece `\d{2}`. -/
def d2 : RE := RE.rep 2 2 (RE.cls pyIsDigit)

/-- Number pattern 1 from the script. -/
def numPat1 : RE :=
  rcat [RE.wb, d2, RE.cls (fun c => c == '-'), d2, RE.cls (fun c => c == '-'),
        d2, RE.star (rcat [RE.cls (fun c => c == '-'), d2]), RE.wb]

/-- Number pattern 2 from the script. -/
def numPat2 : RE :=
  rcat [RE.wb, d2, rplus (RE.cls pyIsSpace), d2, rplus (RE.cls pyIsSpace),
        d2, RE.star (rcat [rplus (RE.cls pyIsSpace), d2]), RE.wb]

/-- Number pattern 3 from the script. -/
def numPat3 : RE :=
  rcat [RE.wb, RE.rep 1 2 (RE.cls pyIsDigit), RE.cls (fun c => c == '/'),
        RE.rep 1 2 (RE.cls pyIsDigit), RE.cls (fun c => c == '/'),
        RE.rep 2 4 (RE.cls pyIsDigit), RE.wb]

/-- Character class `[\d\s,.]` of the money patterns. -/
def moneyChar (c : Char) : Bool :=
  pyIsDigit c || pyIsSpace c || c == ',' || c == '.'

/-- Money pattern 1 from the script (IGNORECASE). -/
def moneyPat1 : RE :=
  rcat [rplus (RE.cls moneyChar), RE.grpEnd, RE.star (RE.cls pyIsSpace),
        RE.alt (rlitCI "FCFA".data)
          (RE.alt (rlitCI "CFA".data)
            (rcat [rlitCI "F".data, RE.star (RE.cls pyIsSpace), rlitCI "CFA".data]))]

/-- Money pattern 2 from the script (IGNORECASE). -/
def moneyPat2 : RE :=
  rcat [RE.rep 1 3 (RE.cls pyIsDigit),
        RE.star (rcat [RE.cls (fun c => c == ',' || c == '.' || pyIsSpace c),
                       RE.rep 3 3 (RE.cls pyIsDigit)]),
        RE.grpEnd, RE.star (RE.cls pyIsSpace),
        RE.alt (rlitCI "FCFA".data) (rlitCI "CFA".data)]

/-- Money pattern 3 from the script (IGNORECASE). -/
def moneyPat3 : RE :=
  rcat [rplus (RE.cls moneyChar), RE.grpEnd, RE.star (RE.cls pyIsSpace),
        RE.alt (rcat [rlitCI "franc".data,
                      RE.rep 0 1 (RE.cls (fun c => c.toLower == 's'))])
          (rlitCI "F".data)]

/-- Date pattern from the script. -/
def datePat : RE :=
  rcat [RE.wb, RE.rep 1 2 (RE.cls pyIsDigit),
        RE.cls (fun c => c == '/' || c == '-'),
        RE.rep 1 2 (RE.cls pyIsDigit),
        RE.cls (fun c => c == '/' || c == '-'),
        RE.rep 2 4 (RE.cls pyIsDigit), RE.wb]

/-- Number detector: all three patterns run over the content, matches
concatenated in pattern order. -/
def detectNumbers (content : Str) : List Str :=
  ([numPat1, numPat2, numPat3].map (fun p => refindall p content)).flatten

/-- Amount detector: the three money patterns, each group stripped. -/
def detectAmounts (content : Str) : List Str :=
  (([moneyPat1, moneyPat2, moneyPat3].map (fun p => refindall p content)).flatten).map pyStrip

/-- Date detector. -/
def detectDates (content : Str) : List Str := refindall datePat content

/-!
HTML data model.  A BeautifulSoup element is modelled by the text
segments of its text nodes in document order plus its class attribute;
`get_text()` concatenates the segments, `get_text(separator, strip=True)`
joins the stripped non-empty segments with the separator.  A parsed
document (soup) is modelled by its two observable query operations:
CSS selection and the list of all `div` elements.
-/

structure Element where
  segments : List Str
  classes : List Str
deriving DecidableEq, Repr

/-- BeautifulSoup `element.get_text()` (default separator, no strip). -/
def getTextJoined (e : Element) : Str := e.segments.flatten

/-- BeautifulSoup `element.get_text(separator=chr(10), strip=True)`:
strip each segment, drop those that become empty, join with newline. -/
def getTextNL (e : Element) : Str :=
  joinNL ((e.segments.map pyStrip).filter (fun s => !s.isEmpty))

structure Soup where
  select : Str → List Element
  allDivs : List Element

/-- Primary selector, also the initial value of the selector field. -/
def primarySelector : Str := "#block-resultats > div".data

/-- Alternative selectors of the script, in listed order. -/
def alternativeSelectors : List Str :=
  [".block-resultats div".data, "[id*=\x27resultat\x27] div".data,
   ".results div".data, ".tirage div".data]

/-- Selector identifier recorded by the keyword fallback. -/
def fallbackSelectorId : Str := "fallback_keyword_search".data

/-- Keyword list of the fallback search. -/
def fallbackKeywords : List Str :=
  ["tirage".data, "resultat".data, "gagnant".data, "numero".data, "fcfa".data]

/-- Condition under which the keyword fallback keeps a `div`: its
lowercased text contains a keyword and its stripped text is longer than
10 characters. -/
def keywordMatch (e : Element) : Bool :=
  let text := pyLower (getTextJoined e)
  fallbackKeywords.any (fun kw => isSubstr kw text) && (pyStrip text).length > 10

/-- Loop over the alternative selectors: first selector with a
non-empty result wins. -/
def firstAlt (soup : Soup) : List Str → Option (Str × List Element)
  | [] => none
  | sel :: rest =>
    let es := soup.select sel
    if es.isEmpty then firstAlt soup rest else some (sel, es)

/-- Outcome of the selector cascade: chosen elements, recorded selector
identifier, recorded raw count. -/
structure Cascade where
  elements : List Element
  selector : Str
  raw_count : Nat
deriving DecidableEq

/-- The selector cascade of the script: primary selector, then the
alternative selectors in order, then the keyword fallback over all
`div` elements (which overwrites the selector identifier and raw count
even when it finds nothing). -/
def runCascade (soup : Soup) : Cascade :=
  let es := soup.select primarySelector
  if es.isEmpty then
    match firstAlt soup alternativeSelectors with
    | some (sel, es2) => ⟨es2, sel, es2.length⟩
    | none =>
      let fb := soup.allDivs.filter keywordMatch
      ⟨fb, fallbackSelectorId, fb.length⟩
  else ⟨es, primarySelector, es.length⟩

/-!
Element extraction.  The extraction timestamp of the script is wall
clock time and is left out of the model; no claim concerns it.
-/

structure Item where
  item_number : Nat
  text_content : Str
  text_lines : List Str
  html_classes : List Str
  content_length : Nat
  detected_numbers : Option (List Str)
  detected_amounts : Option (List Str)
  detected_dates : Option (List Str)
  content_type : Str
deriving DecidableEq, Repr

/-- Keywords of the result category of the content classifier. -/
def resultKeywords : List Str := ["tirage".data, "resultat".data, "gagnant".data]

/-- Keywords of the announcement category of the content classifier. -/
def announceKeywords : List Str := ["annonce".data, "info".data, "prochaine".data]

/-- Content classifier of the script: result keywords first, then
announcement keywords, else unknown, over the lowercased text. -/
def classifyContent (content : Str) : Str :=
  let lower := pyLower content
  if resultKeywords.any (fun w => isSubstr w lower) then "resultat".data
  else if announceKeywords.any (fun w => isSubstr w lower) then "annonce".data
  else "unknown".data

/-- Python `list(set(xs))`: duplicates removed.  Set iteration order is
unspecified in Python, so the model fixes one order (that of
`List.dedup`); every property proved about such collections is order
insensitive (membership, absence of duplicates). -/
def pySet (xs : List Str) : List Str := xs.dedup

/-- Body of the extraction loop for one element at 1-based index `i`:
`none` when the element is skipped because its rejoined text is shorter
than 10 characters, otherwise the emitted item. -/
def buildItem (i : Nat) (e : Element) : Option Item :=
  let content := getTextNL e
  let lines := ((splitNL content).map pyStrip).filter (fun l => !l.isEmpty)
  let joined := joinNL lines
  if joined.length < 10 then none
  else
    let nums := detectNumbers content
    let amts := detectAmounts content
    let dates := detectDates content
    some
      { item_number := i
        text_content := joined
        text_lines := lines
        html_classes := e.classes
        content_length := content.length
        detected_numbers := if nums.isEmpty then none else some (pySet nums)
        detected_amounts := if amts.isEmpty then none else some (pySet amts)
        detected_dates := if dates.isEmpty then none else some dates
        content_type := classifyContent content }

/-- Extraction loop from 1-based index `i` over the remaining elements. -/
def processFrom : Nat → List Element → List Item
  | _, [] => []
  | i, e :: rest =>
    match buildItem i e with
    | some it => it :: processFrom (i + 1) rest
    | none => processFrom (i + 1) rest

/-- The element extractor: `enumerate(elements[:10], 1)` with the
short-text filter. -/
def processItems (es : List Element) : List Item :=
  processFrom 1 (es.take 10)

/-!
Report assembly.  The extraction date (wall clock) is left out; every
other field of the report dictionary is modelled.
-/

structure Report where
  source_url : Str
  selector : Str
  success : Bool
  error : Option Str
  items : List Item
  raw_count : Nat
  environment : Str
deriving DecidableEq

/-- The report as initialised at the top of `scrape_lonab`. -/
def initialReport : Report :=
  { source_url := "http://www.lonab.bf".data
    selector := primarySelector
    success := false
    error := none
    items := []
    raw_count := 0
    environment := "render.com".data }

/-- Error message of the timeout handler. -/
def timeoutMsg : Str := "Timeout: le site LONAB met trop de temps à répondre".data

/-- Error message of the connection-error handler. -/
def connErrMsg : Str := "Erreur de connexion au site LONAB".data

/-- Message prefix of the generic request-error handler. -/
def netErrHead : Str := "Erreur réseau: ".data

/-- Message prefix of the catch-all handler. -/
def genErrHead : Str := "Erreur: ".data

/-- Error message of the no-elements branch. -/
def noElementsMsg : Str := "Aucun élément trouvé avec tous les sélecteurs".data

/-- Outcome of the fetch-and-parse step, the only effectful part of
`scrape_lonab`; each constructor corresponds to one handler of the
try/except block (a non-2xx status raises a request exception). -/
inductive FetchOutcome where
  | success : Soup → FetchOutcome
  | timeout : FetchOutcome
  | connectionError : FetchOutcome
  | requestError : Str → FetchOutcome
  | otherError : Str → FetchOutcome

/-- The scrape function: cascade, extraction and report assembly on a
parsed document, or the corresponding error report on a failed fetch. -/
def scrape_lonab : FetchOutcome → Report
  | .timeout => { initialReport with error := some timeoutMsg }
  | .connectionError => { initialReport with error := some connErrMsg }
  | .requestError m => { initialReport with error := some (netErrHead ++ m) }
  | .otherError m => { initialReport with error := some (genErrHead ++ m) }
  | .success soup =>
    let c := runCascade soup
    if c.elements.isEmpty then
      { initialReport with selector := c.selector, raw_count := c.raw_count,
                           error := some noElementsMsg }
    else
      { initialReport with selector := c.selector, raw_count := c.raw_count,
                           items := processItems c.elements, success := true }

/-!
Entry point.  `main` prints the report of `scrape_lonab` and exits with
code 0 exactly when the success flag is set; a failure inside `main`
itself is converted into a minimal fallback dictionary with only four
keys.  The JSON objects are modelled by their key lists.
-/

/-- Keys of the report dictionary built in `scrape_lonab`. -/
def reportJsonKeys : List Str :=
  ["extraction_date".data, "source_url".data, "selector".data, "success".data,
   "error".data, "items".data, "raw_count".data, "environment".data]

/-- Keys of the fallback dictionary built in the top-level handler of
`main`. -/
def fallbackJsonKeys : List Str :=
  ["success".data, "error".data, "items".data, "environment".data]

/-- Outcome of one `main` invocation: either the scrape ran (with some
fetch outcome) or an unexpected failure hit the top-level handler. -/
inductive MainOutcome where
  | scraped : FetchOutcome → MainOutcome
  | criticalError : Str → MainOutcome

/-- Key set of the JSON object printed on stdout. -/
def emittedJsonKeys : MainOutcome → List Str
  | .scraped _ => reportJsonKeys
  | .criticalError _ => fallbackJsonKeys

/-- Success flag of the JSON object printed on stdout. -/
def emittedSuccess : MainOutcome → Bool
  | .scraped f => (scrape_lonab f).success
  | .criticalError _ => false

/-- Process exit code of `main`. -/
def exitCode : MainOutcome → Nat
  | .scraped f => if (scrape_lonab f).success then 0 else 1
  | .criticalError _ => 1

/-!
Refinement view of the cascade, written from the specification wording
(first strategy in priority order with a non-empty result), to be
compared with `runCascade`, which is transcribed from the code.
-/

/-- Candidate sets of the strategies in the priority order stated by
the specification: primary selector, the four alternative selectors in
listed order, then the keyword fallback. -/
def cascadeStrategies (soup : Soup) : List (List Element) :=
  soup.select primarySelector ::
    (alternativeSelectors.map soup.select ++ [soup.allDivs.filter keywordMatch])

/-- First non-empty candidate set, written from the specification
wording; empty when every strategy comes up empty. -/
def specFirstNonEmpty : List (List Element) → List Element
  | [] => []
  | [] :: ls => specFirstNonEmpty ls
  | (e :: es) :: _ => e :: es

/-!
Concrete inputs used by scenario claims, counterexamples and witnesses.
-/

/-- Element of the scenario of claim C5: one element whose text is
"Tirage National", a newline, "12-34-56-78", a newline, "5000 FCFA". -/
def elemC5 : Element := ⟨["Tirage National\n12-34-56-78\n5000 FCFA".data], []⟩

/-- Document whose primary selector yields exactly `elemC5`. -/
def soupC5 : Soup := ⟨fun sel => if sel == primarySelector then [elemC5] else [], []⟩

/-- Element whose text ("court") is shorter than 10 characters. -/
def elemShort : Element := ⟨["court".data], []⟩

/-- Document whose primary selector yields one element that is too
short to survive the length filter. -/
def soupShort : Soup :=
  ⟨fun sel => if sel == primarySelector then [elemShort] else [], []⟩

/-- Document with no selector match and no `div` at all. -/
def soupEmpty : Soup := ⟨fun _ => [], []⟩

/-- Element with a 12-character text and no detectable pattern. -/
def elemLongA : Element := ⟨["aaaaaaaaaaaa".data], []⟩

/-- Second element with a 12-character text and no detectable pattern. -/
def elemLongC : Element := ⟨["cccccccccccc".data], []⟩

/-- Element whose text repeats one date, so that the date detector
reports a duplicate. -/
def elemDup : Element := ⟨["Tirage 01/02/2023 01/02/2023".data], []⟩

/-- Element list on which the extractor skips the middle element, so
the emitted item numbers are 1 and 3. -/
def skipElems : List Element := [elemLongA, elemShort, elemLongC]

/-- The item the extractor emits for `elemLongA` at position 1. -/
def itemLongA : Item :=
  { item_number := 1
    text_content := "aaaaaaaaaaaa".data
    text_lines := ["aaaaaaaaaaaa".data]
    html_classes := []
    content_length := 12
    detected_numbers := none
    detected_amounts := none
    detected_dates := none
    content_type := "unknown".data }

/-- The item the extractor emits for `elemDup` at position 1: the date
detector keeps both occurrences of the repeated date, the number
detector reports the deduplicated singleton. -/
def itemDup : Item :=
  { item_number := 1
    text_content := "Tirage 01/02/2023 01/02/2023".data
    text_lines := ["Tirage 01/02/2023 01/02/2023".data]
    html_classes := []
    content_length := 28
    detected_numbers := some ["01/02/2023".data]
    detected_amounts := none
    detected_dates := some ["01/02/2023".data, "01/02/2023".data]
    content_type := "resultat".data }

/-!
Helper lemmas.
-/

/-- Characterisation of a successful `buildItem`: the item records the
given index, the joined text as content, and the detector outputs. -/
theorem buildItem_some {i : Nat} {e : Element} {it : Item}
    (h : buildItem i e = some it) :
    it.item_number = i ∧
    it.text_content =
      joinNL (((splitNL (getTextNL e)).map pyStrip).filter (fun l => !l.isEmpty)) ∧
    ¬ it.text_content.length < 10 ∧
    it.detected_numbers =
      (if (detectNumbers (getTextNL e)).isEmpty then none
       else some (pySet (detectNumbers (getTextNL e)))) ∧
    it.detected_amounts =
      (if (detectAmounts (getTextNL e)).isEmpty then none
       else some (pySet (detectAmounts (getTextNL e)))) ∧
    it.detected_dates =
      (if (detectDates (getTextNL e)).isEmpty then none
       else some (detectDates (getTextNL e))) ∧
    it.content_type = classifyContent (getTextNL e) := by
  simp only [buildItem] at h
  split at h
  · exact absurd h (by simp)
  · next hlen =>
    obtain rfl := (Option.some.injEq _ _).mp h
    refine ⟨rfl, rfl, hlen, rfl, rfl, rfl, rfl⟩

/-- Every item of the extraction loop comes from the element at its
recorded position: index `j` into the remaining list, with item number
`n + j`. -/
theorem processFrom_mem {es : List Element} {n : Nat} {it : Item}
    (h : it ∈ processFrom n es) :
    ∃ j, ∃ hj : j < es.length,
      it.item_number = n + j ∧ buildItem (n + j) (es.get ⟨j, hj⟩) = some it := by
  induction es generalizing n with
  | nil => simp [processFrom] at h
  | cons e rest ih =>
    simp only [processFrom] at h
    cases hb : buildItem n e with
    | some it2 =>
      rw [hb] at h
      rcases List.mem_cons.mp h with rfl | htail
      · exact ⟨0, by simp, by simpa using (buildItem_some hb).1, by simpa using hb⟩
      · obtain ⟨j, hj, hnum, hbi⟩ := ih htail
        refine ⟨j + 1, by simpa using hj, by omega, ?_⟩
        have hn : n + (j + 1) = (n + 1) + j := by omega
        rw [hn]
        exact hbi
    | none =>
      rw [hb] at h
      obtain ⟨j, hj, hnum, hbi⟩ := ih h
      refine ⟨j + 1, by simpa using hj, by omega, ?_⟩
      have hn : n + (j + 1) = (n + 1) + j := by omega
      rw [hn]
      exact hbi

/-- The extraction loop emits at most one item per element. -/
theorem processFrom_length (es : List Element) (n : Nat) :
    (processFrom n es).length ≤ es.length := by
  induction es generalizing n with
  | nil => simp [processFrom]
  | cons e rest ih =>
    simp only [processFrom]
    cases buildItem n e with
    | some it => simpa using ih (n + 1)
    | none => exact Nat.le_succ_of_le (ih (n + 1))

/-- Item numbers of the extraction loop are at least the start index. -/
theorem processFrom_lb {es : List Element} {n : Nat} {it : Item}
    (h : it ∈ processFrom n es) : n ≤ it.item_number := by
  obtain ⟨j, hj, hnum, _⟩ := processFrom_mem h
  omega

/-- Item numbers of the extraction loop stay below the start index plus
the number of remaining elements. -/
theorem processFrom_ub {es : List Element} {n : Nat} {it : Item}
    (h : it ∈ processFrom n es) : it.item_number < n + es.length := by
  obtain ⟨j, hj, hnum, _⟩ := processFrom_mem h
  omega

/-- Item numbers are strictly increasing along the extraction loop. -/
theorem processFrom_chain (es : List Element) (n : Nat) :
    List.Chain' (fun a b : Item => a.item_number < b.item_number)
      (processFrom n es) := by
  induction es generalizing n with
  | nil => simp [processFrom]
  | cons e rest ih =>
    simp only [processFrom]
    cases hb : buildItem n e with
    | none => exact ih (n + 1)
    | some it =>
      refine List.chain'_cons'.mpr ⟨?_, ih (n + 1)⟩
      intro y hy
      have hmem : y ∈ processFrom (n + 1) rest := List.mem_of_mem_head? hy
      have := processFrom_lb hmem
      have := (buildItem_some hb).1
      omega

/-- A non-empty candidate set at the head of the strategy list wins. -/
theorem specFirstNonEmpty_cons_ne {l : List Element} (ls : List (List Element))
    (h : l ≠ []) : specFirstNonEmpty (l :: ls) = l := by
  cases l with
  | nil => exact absurd rfl h
  | cons e es => rfl

/-- When the alternative-selector loop finds a winner, that winner is
the first non-empty candidate set among those selectors. -/
theorem firstAlt_some {soup : Soup} :
    ∀ (sels : List Str) (sel : Str) (es : List Element) (rest : List (List Element)),
      firstAlt soup sels = some (sel, es) →
      specFirstNonEmpty (sels.map soup.select ++ rest) = es := by
  intro sels
  induction sels with
  | nil => intro sel es rest h; exact absurd h (by simp [firstAlt])
  | cons s ss ih =>
    intro sel es rest h
    rw [List.map_cons, List.cons_append]
    by_cases hs : soup.select s = []
    · rw [hs]
      have h2 : firstAlt soup ss = some (sel, es) := by
        simpa [firstAlt, hs] using h
      exact ih sel es rest h2
    · have h2 : s = sel ∧ soup.select s = es := by
        simp only [firstAlt] at h
        rw [if_neg (fun hemp => hs (List.isEmpty_iff.mp hemp))] at h
        simpa using h
      rw [specFirstNonEmpty_cons_ne _ hs]
      exact h2.2

/-- When the alternative-selector loop finds nothing, the first
non-empty candidate set is decided by the remaining strategies. -/
theorem firstAlt_none {soup : Soup} :
    ∀ (sels : List Str) (rest : List (List Element)),
      firstAlt soup sels = none →
      specFirstNonEmpty (sels.map soup.select ++ rest) = specFirstNonEmpty rest := by
  intro sels
  induction sels with
  | nil => intro rest _; rfl
  | cons s ss ih =>
    intro rest h
    rw [List.map_cons, List.cons_append]
    by_cases hs : soup.select s = []
    · rw [hs]
      have h2 : firstAlt soup ss = none := by simpa [firstAlt, hs] using h
      exact ih rest h2
    · exfalso
      simp only [firstAlt] at h
      rw [if_neg (fun hemp => hs (List.isEmpty_iff.mp hemp))] at h
      exact absurd h (by simp)

/-- A soup on which every alternative selector comes up empty makes
the alternative-selector loop fail. -/
theorem firstAlt_none_of_empty {soup : Soup} :
    ∀ sels : List Str, (∀ s ∈ sels, soup.select s = []) →
      firstAlt soup sels = none := by
  intro sels
  induction sels with
  | nil => intro _; rfl
  | cons s ss ih =>
    intro h
    have hs : soup.select s = [] := h s (List.mem_cons_self ..)
    simp only [firstAlt, hs]
    simpa using ih fun t ht => h t (List.mem_cons_of_mem _ ht)

/-- When the primary selector matches, the cascade returns exactly its
elements, records the primary selector identifier and its raw count. -/
theorem runCascade_primary {soup : Soup}
    (h : soup.select primarySelector ≠ []) :
    runCascade soup =
      ⟨soup.select primarySelector, primarySelector,
        (soup.select primarySelector).length⟩ := by
  simp only [runCascade]
  rw [if_neg (by simpa [List.isEmpty_iff] using h)]

/-- The elements chosen by the cascade are the first non-empty
candidate set of the strategies in priority order. -/
theorem runCascade_elements (soup : Soup) :
    (runCascade soup).elements = specFirstNonEmpty (cascadeStrategies soup) := by
  rw [cascadeStrategies]
  by_cases hp : soup.select primarySelector = []
  · rw [hp]
    show (runCascade soup).elements =
      specFirstNonEmpty (alternativeSelectors.map soup.select ++
        [soup.allDivs.filter keywordMatch])
    cases ha : firstAlt soup alternativeSelectors with
    | some p =>
      obtain ⟨sel, es⟩ := p
      rw [firstAlt_some alternativeSelectors sel es _ ha]
      simp only [runCascade, hp, List.isEmpty_nil, if_pos, ha]
    | none =>
      rw [firstAlt_none alternativeSelectors _ ha]
      simp only [runCascade, hp, List.isEmpty_nil, if_pos, ha]
      by_cases hf : soup.allDivs.filter keywordMatch = []
      · rw [hf]; rfl
      · rw [specFirstNonEmpty_cons_ne _ hf]
  · rw [specFirstNonEmpty_cons_ne _ hp]
    rw [runCascade_primary hp]

/-!
Claim theorems.
-/

/-- Claim C1: for every parsed HTML document, the selector cascade
tries strategies in the fixed priority order (primary selector, then
the four alternative selectors in listed order, then the keyword
fallback over all divs) and returns the element set of the first
strategy that yields at least one element; in particular, when the
primary selector matches, the cascade output is that of the primary
selector alone (its elements, its identifier, its raw count),
independent of any later strategy. -/
theorem C1_cascade_priority (soup : Soup) :
    (runCascade soup).elements = specFirstNonEmpty (cascadeStrategies soup) ∧
    (soup.select primarySelector ≠ [] →
      runCascade soup =
        ⟨soup.select primarySelector, primarySelector,
          (soup.select primarySelector).length⟩) :=
  ⟨runCascade_elements soup, fun h => runCascade_primary h⟩

/-- Witness for C1 at a concrete document whose primary selector yields
one element. -/
theorem C1_cascade_priority_witness :
    runCascade soupC5 =
      ⟨soupC5.select primarySelector, primarySelector,
        (soupC5.select primarySelector).length⟩ :=
  (C1_cascade_priority soupC5).2 (by decide)

/-- Claim C2: the element extractor emits at most 10 items and never
emits an item whose joined normalized text has fewer than 10
characters. -/
theorem C2_extractor_caps (es : List Element) :
    (processItems es).length ≤ 10 ∧
    ∀ it ∈ processItems es, 10 ≤ it.text_content.length := by
  constructor
  · calc (processItems es).length ≤ (es.take 10).length := processFrom_length _ 1
      _ ≤ 10 := List.length_take_le 10 es
  · intro it hit
    obtain ⟨j, hj, hnum, hbi⟩ := processFrom_mem hit
    have hlen := (buildItem_some hbi).2.2.1
    omega

/-- Witness for C2: a concrete emitted item of a concrete element list,
whose joined text has at least 10 characters. -/
theorem C2_extractor_caps_witness :
    itemLongA ∈ processItems skipElems ∧ 10 ≤ itemLongA.text_content.length :=
  ⟨by decide, (C2_extractor_caps skipElems).2 itemLongA (by decide)⟩

/-- Claim C3 counterexample: on a text containing "tirage" the
classifier returns the tag "resultat", which differs from the tag
"result" stated by the claim. -/
theorem C3_classifier_counterexample :
    classifyContent "Tirage du jour".data = "resultat".data ∧
    "resultat".data ≠ "result".data := by
  constructor
  · decide
  · decide

/-- Claim C3 (amended): the content classifier is total and
deterministic and assigns exactly one tag: "resultat" when the
lowercased text contains a result keyword (tirage, resultat, gagnant);
otherwise "annonce" when it contains an announcement keyword (annonce,
info, prochaine); otherwise "unknown"; the result category is checked
before the announcement category. -/
theorem C3_classifier_total (c : Str) :
    (classifyContent c = "resultat".data ∨ classifyContent c = "annonce".data ∨
      classifyContent c = "unknown".data) ∧
    (resultKeywords.any (fun w => isSubstr w (pyLower c)) = true →
      classifyContent c = "resultat".data) ∧
    (resultKeywords.any (fun w => isSubstr w (pyLower c)) ≠ true →
      announceKeywords.any (fun w => isSubstr w (pyLower c)) = true →
      classifyContent c = "annonce".data) ∧
    (resultKeywords.any (fun w => isSubstr w (pyLower c)) ≠ true →
      announceKeywords.any (fun w => isSubstr w (pyLower c)) ≠ true →
      classifyContent c = "unknown".data) := by
  by_cases h1 : resultKeywords.any (fun w => isSubstr w (pyLower c)) = true
  · have e : classifyContent c = "resultat".data := by
      simp only [classifyContent]
      rw [if_pos h1]
    exact ⟨Or.inl e, fun _ => e, fun hf _ => absurd h1 hf, fun hf _ => absurd h1 hf⟩
  · by_cases h2 : announceKeywords.any (fun w => isSubstr w (pyLower c)) = true
    · have e : classifyContent c = "annonce".data := by
        simp only [classifyContent]
        rw [if_neg h1, if_pos h2]
      exact ⟨Or.inr (Or.inl e), fun ht => absurd ht h1, fun _ _ => e,
        fun _ hf => absurd h2 hf⟩
    · have e : classifyContent c = "unknown".data := by
        simp only [classifyContent]
        rw [if_neg h1, if_neg h2]
      exact ⟨Or.inr (Or.inr e), fun ht => absurd ht h1, fun _ ht => absurd ht h2,
        fun _ _ => e⟩

/-- Witness for C3: a text containing both a result keyword and an
announcement keyword is classified "resultat" (result checked first). -/
theorem C3_classifier_total_witness :
    resultKeywords.any (fun w => isSubstr w (pyLower "Tirage annonce".data)) = true ∧
    classifyContent "Tirage annonce".data = "resultat".data :=
  ⟨by decide, (C3_classifier_total "Tirage annonce".data).2.1 (by decide)⟩

/-- Claim C4: detected numbers and detected amounts carry no duplicate
string values; detected dates are exactly the detector matches in
first-seen scan order and may contain duplicates (shown on a concrete
element whose date list holds the same date twice). -/
theorem C4_detector_collections :
    (∀ (es : List Element), ∀ it ∈ processItems es,
      (∀ l, it.detected_numbers = some l → l.Nodup) ∧
      (∀ l, it.detected_amounts = some l → l.Nodup)) ∧
    (∀ (i : Nat) (e : Element) (it : Item), buildItem i e = some it →
      it.detected_dates =
        (if (detectDates (getTextNL e)).isEmpty then none
         else some (detectDates (getTextNL e)))) ∧
    buildItem 1 elemDup = some itemDup ∧
    itemDup.detected_dates = some ["01/02/2023".data, "01/02/2023".data] ∧
    ¬ (["01/02/2023".data, "01/02/2023".data] : List Str).Nodup := by
  refine ⟨?_, ?_, by decide, by decide, by decide⟩
  · intro es it hit
    obtain ⟨j, hj, hnum, hbi⟩ := processFrom_mem hit
    have h := buildItem_some hbi
    constructor
    · intro l hl
      rw [h.2.2.2.1] at hl
      split at hl
      · exact absurd hl (by simp)
      · obtain rfl := (Option.some.injEq _ _).mp hl.symm
        exact List.nodup_dedup _
    · intro l hl
      rw [h.2.2.2.2.1] at hl
      split at hl
      · exact absurd hl (by simp)
      · obtain rfl := (Option.some.injEq _ _).mp hl.symm
        exact List.nodup_dedup _
  · intro i e it hbi
    exact (buildItem_some hbi).2.2.2.2.2.1

/-- Witness for C4: the deduplicated number list of the concrete item
has no duplicates, by the theorem applied at that item. -/
theorem C4_detector_collections_witness :
    (["01/02/2023".data] : List Str).Nodup :=
  (C4_detector_collections.1 [elemDup] itemDup (by decide)).1
    ["01/02/2023".data] (by decide)

/-- Claim C5 counterexample: on the scenario input the single produced
item carries content_type "resultat" (the claim states "result") and
its detected amounts do not contain "5000": the greedy amount regexes
capture "78\n5000" (across the newline) and "000" instead. -/
theorem C5_scenario_counterexample :
    ((scrape_lonab (.success soupC5)).items.map (fun it => it.content_type) =
      ["resultat".data]) ∧
    "resultat".data ≠ "result".data ∧
    ((scrape_lonab (.success soupC5)).items.map
      (fun it => (it.detected_amounts.getD []).contains "5000".data) = [false]) := by
  refine ⟨by decide, by decide, by decide⟩

/-- Claim C5 (amended): on the scenario input the pipeline produces
exactly one item; its content_type is "resultat", its detected numbers
contain "12-34-56-78", and its detected amounts are exactly the two
strings "78\n5000" and "000" (so "5000" alone is absent). -/
theorem C5_scenario_amended :
    (scrape_lonab (.success soupC5)).items.length = 1 ∧
    ((scrape_lonab (.success soupC5)).items.map (fun it => it.content_type) =
      ["resultat".data]) ∧
    ((scrape_lonab (.success soupC5)).items.map
      (fun it => (it.detected_numbers.getD []).contains "12-34-56-78".data) = [true]) ∧
    ((scrape_lonab (.success soupC5)).items.map
      (fun it => (it.detected_amounts.getD []).contains "78\n5000".data) = [true]) ∧
    ((scrape_lonab (.success soupC5)).items.map
      (fun it => (it.detected_amounts.getD []).contains "000".data) = [true]) ∧
    ((scrape_lonab (.success soupC5)).items.map
      (fun it => (it.detected_amounts.getD []).length) = [2]) := by
  refine ⟨by decide, by decide, by decide, by decide, by decide, by decide⟩

/-- Claim C6 counterexample: the fallback JSON object emitted by the
top-level handler of main lacks the raw_count and selector fields. -/
theorem C6_report_fields_counterexample :
    ¬ "raw_count".data ∈ emittedJsonKeys (.criticalError "boom".data) ∧
    ¬ "selector".data ∈ emittedJsonKeys (.criticalError "boom".data) ∧
    "success".data ∈ emittedJsonKeys (.criticalError "boom".data) := by
  refine ⟨by decide, by decide, by decide⟩

/-- Claim C6 (amended): every report emitted through scrape_lonab
(all fetch outcomes, including every failure path inside the scrape)
carries the six fields success, error, items, raw_count, selector and
environment; the minimal fallback object of the top-level handler
carries only success, error, items and environment. -/
theorem C6_report_fields (f : FetchOutcome) (m : Str) :
    ("success".data ∈ emittedJsonKeys (.scraped f) ∧
     "error".data ∈ emittedJsonKeys (.scraped f) ∧
     "items".data ∈ emittedJsonKeys (.scraped f) ∧
     "raw_count".data ∈ emittedJsonKeys (.scraped f) ∧
     "selector".data ∈ emittedJsonKeys (.scraped f) ∧
     "environment".data ∈ emittedJsonKeys (.scraped f)) ∧
    emittedJsonKeys (.criticalError m) = fallbackJsonKeys ∧
    ("success".data ∈ fallbackJsonKeys ∧ "error".data ∈ fallbackJsonKeys ∧
     "items".data ∈ fallbackJsonKeys ∧ "environment".data ∈ fallbackJsonKeys) := by
  refine ⟨⟨?_, ?_, ?_, ?_, ?_, ?_⟩, rfl, by decide, by decide, by decide, by decide⟩ <;>
    · show _ ∈ reportJsonKeys
      decide

/-- Claim C7: on a timeout the report has success false, an error
message mentioning the timeout, and no items, and the exit code is 1;
in general main exits 0 exactly when the emitted success flag is true
and 1 otherwise. -/
theorem C7_timeout_and_exit :
    (scrape_lonab .timeout).success = false ∧
    (scrape_lonab .timeout).error = some timeoutMsg ∧
    isSubstr "Timeout".data timeoutMsg = true ∧
    (scrape_lonab .timeout).items = [] ∧
    exitCode (.scraped .timeout) = 1 ∧
    ∀ o : MainOutcome, exitCode o = if emittedSuccess o then 0 else 1 := by
  refine ⟨rfl, rfl, by decide, rfl, rfl, ?_⟩
  intro o
  cases o with
  | scraped f => rfl
  | criticalError m => rfl

/-- Claim C8 counterexample: on a document with no selector match and
no keyword div, the error field is the French message of the script,
not the string "no elements found" stated by the claim. -/
theorem C8_no_elements_counterexample :
    (scrape_lonab (.success soupEmpty)).success = false ∧
    (scrape_lonab (.success soupEmpty)).error = some noElementsMsg ∧
    (scrape_lonab (.success soupEmpty)).raw_count = 0 ∧
    noElementsMsg ≠ "no elements found".data := by
  refine ⟨by decide, by decide, by decide, by decide⟩

/-- Claim C8 (amended): when the primary selector, every alternative
selector and the keyword fallback all yield nothing, the pipeline
terminates with a report whose success flag is false, whose error is
the no-elements message "Aucun élément trouvé avec tous les
sélecteurs", and whose raw count is 0. -/
theorem C8_no_elements (soup : Soup)
    (hp : soup.select primarySelector = [])
    (ha : ∀ s ∈ alternativeSelectors, soup.select s = [])
    (hf : soup.allDivs.filter keywordMatch = []) :
    (scrape_lonab (.success soup)).success = false ∧
    (scrape_lonab (.success soup)).error = some noElementsMsg ∧
    (scrape_lonab (.success soup)).raw_count = 0 := by
  have hc : runCascade soup = ⟨[], fallbackSelectorId, 0⟩ := by
    simp only [runCascade, hp]
    rw [firstAlt_none_of_empty alternativeSelectors ha]
    simp [hf]
  simp only [scrape_lonab, hc]
  exact ⟨rfl, rfl, rfl⟩

/-- Witness for C8 at the concrete document with no divs at all. -/
theorem C8_no_elements_witness :
    (scrape_lonab (.success soupEmpty)).error = some noElementsMsg :=
  (C8_no_elements soupEmpty rfl (fun _ _ => rfl) rfl).2.1

/-- Claim C9: on a document whose primary selector yields one element
with text shorter than 10 characters, the report is emitted with the
success flag set and an empty item list. -/
theorem C9_success_empty_items :
    (runCascade soupShort).elements ≠ [] ∧
    (scrape_lonab (.success soupShort)).success = true ∧
    (scrape_lonab (.success soupShort)).items = [] := by
  refine ⟨by decide, by decide, by decide⟩

/-- Claim C10: each emitted item records the 1-based position of its
source element among the first 10 candidates, assigned before the
length filter: item numbers are strictly increasing, lie in 1..10, each
item is the extraction of the candidate at its recorded position, and
values of filtered-out elements are skipped without renumbering (on the
concrete list the emitted numbers are 1 and 3). -/
theorem C10_item_numbers (es : List Element) :
    List.Chain' (fun a b : Item => a.item_number < b.item_number) (processItems es) ∧
    (∀ it ∈ processItems es,
      1 ≤ it.item_number ∧ it.item_number ≤ 10 ∧
      ∃ hj : it.item_number - 1 < (es.take 10).length,
        buildItem it.item_number ((es.take 10).get ⟨it.item_number - 1, hj⟩) =
          some it) ∧
    (processItems skipElems).map (fun it => it.item_number) = [1, 3] := by
  refine ⟨processFrom_chain _ 1, ?_, by decide⟩
  intro it hit
  obtain ⟨j, hj, hnum, hbi⟩ := processFrom_mem hit
  have h10 : (es.take 10).length ≤ 10 := List.length_take_le 10 es
  have hj2 : it.item_number - 1 < (es.take 10).length := by omega
  refine ⟨by omega, by omega, hj2, ?_⟩
  have hfin : (⟨it.item_number - 1, hj2⟩ : Fin (es.take 10).length) = ⟨j, hj⟩ :=
    Fin.ext (show it.item_number - 1 = j by omega)
  rw [hfin, hnum]
  exact hbi

/-- Witness for C10 at a concrete emitted item of a concrete list. -/
theorem C10_item_numbers_witness :
    1 ≤ itemLongA.item_number :=
  ((C10_item_numbers skipElems).2.1 itemLongA (by decide)).1
